import Mathlib

/-!
# InfoNest access-control core: shallow embedding

This file embeds the access-control core of the InfoNest application:

* the client-side permission derivation and session cache from
  `src/contexts/AuthContext.tsx` (`generatePermissions`, `getCachedData`,
  `clearCache`, `loadUserProfile`, and the derived role flags), and
* the declarative security-rules policy (the rules document), one boolean
  predicate per collection and operation, over the requester identity, the
  users database (for the cross-collection role lookup the rules perform via
  `get(/databases/…/users/$(request.auth.uid))`), and the existing and
  proposed documents.

Notation for the rules model: `resource.data.f` on a missing field makes a
Firestore rule predicate evaluate to false (field access on a missing field
is an error, and an erroring condition denies); we model document fields as
`Option` values and translate `resource.data.f == v` as `doc.f = some v`,
which is false when the field is absent, matching that semantics. A `get()`
of a non-existent document likewise errors, so the caller's stored role is
`(db uid).bind role`, and a comparison against `some "admin"` is false when
the caller has no profile document.
-/

/-- The three roles of `UserProfile.role` in `AuthContext.tsx`:
`'user' | 'infowriter' | 'admin'`. -/
inductive Role where
  | user
  | infowriter
  | admin
deriving DecidableEq, Repr

/-- `CachedPermissions` from `AuthContext.tsx`: the seven capability flags
plus the dashboard route. -/
structure CachedPermissions where
  canCreateArticles : Bool
  canManageUsers : Bool
  canAccessAdmin : Bool
  canEditAnyArticle : Bool
  canDeleteArticles : Bool
  canApproveWriters : Bool
  canViewAnalytics : Bool
  dashboardRoute : String
deriving DecidableEq, Repr

/-- `basePermissions` local constant of `generatePermissions`. -/
def basePermissions : CachedPermissions where
  canCreateArticles := false
  canManageUsers := false
  canAccessAdmin := false
  canEditAnyArticle := false
  canDeleteArticles := false
  canApproveWriters := false
  canViewAnalytics := false
  dashboardRoute := "/dashboard"

/-- `generatePermissions` from `AuthContext.tsx`: derives the capability set
from the role. The `infowriter` arm spreads `basePermissions` and overrides
`canCreateArticles`, `canEditAnyArticle`, `canViewAnalytics` and
`dashboardRoute` exactly as the source does. -/
def generatePermissions : Role → CachedPermissions
  | .admin =>
    { canCreateArticles := true
      canManageUsers := true
      canAccessAdmin := true
      canEditAnyArticle := true
      canDeleteArticles := true
      canApproveWriters := true
      canViewAnalytics := true
      dashboardRoute := "/dashboard" }
  | .infowriter =>
    { basePermissions with
      canCreateArticles := true
      canEditAnyArticle := false
      canViewAnalytics := false
      dashboardRoute := "/dashboard" }
  | .user =>
    { basePermissions with dashboardRoute := "/dashboard" }

/-- `isAdmin` in `AuthProvider`: `permissions?.canAccessAdmin || false`.
`none` models an absent (`null`) permission set. -/
def isAdminFlag : Option CachedPermissions → Bool
  | some p => p.canAccessAdmin
  | none => false

/-- `isInfoWriter` in `AuthProvider`:
`permissions?.canCreateArticles && !permissions?.canAccessAdmin || false`. -/
def isInfoWriterFlag : Option CachedPermissions → Bool
  | some p => p.canCreateArticles && !p.canAccessAdmin
  | none => false

/-- `isUser` in `AuthProvider`: `userProfile?.role === 'user' || false`,
a direct comparison on the role field of the profile. -/
def isUserFlag : Option Role → Bool
  | some r => r == .user
  | none => false

/-! ## The security-rules policy model -/

/-- The request kinds of the rules language. A rules-language `read` covers
both single-document gets (`.read`) and queries (`.list`); a rules-language
`write` covers `.create`, `.update` and `.delete`. -/
inductive Op where
  | read
  | list
  | create
  | update
  | delete
deriving DecidableEq, Repr, BEq

/-- The operations a rules-language grant keyword covers. -/
def opsOf : Op → List Op
  | .read => [.read, .list]
  | other => [other]

/-- Whether an `allow` line whose keywords expand to `granted` covers `op`. -/
def covers (granted : List Op) (op : Op) : Bool :=
  (granted.flatMap opsOf).contains op

/-- A document in the `users` collection, as far as the rules inspect it:
only the `role` field is read. `none` models an absent field. -/
structure UserData where
  role : Option String
deriving DecidableEq, Repr

/-- The `users` collection: document id to document, `none` when the
document does not exist. Rules consult it through
`get(/databases/$(database)/documents/users/$(request.auth.uid))` and
`exists(...)`. -/
def UsersDB : Type := String → Option UserData

/-- The caller's stored role: `get(users/uid).data.role`. `none` both when
the profile document is missing (the `get` errors) and when the `role`
field is absent. -/
def storedRole (db : UsersDB) (uid : String) : Option String :=
  (db uid).bind UserData.role

/-- `get(users/uid).data.role == 'admin'`. -/
def isStoredAdmin (db : UsersDB) (uid : String) : Bool :=
  storedRole db uid == some "admin"

/-- `exists(/databases/$(database)/documents/users/$(request.auth.uid))`. -/
def userDocExists (db : UsersDB) (uid : String) : Bool :=
  (db uid).isSome

/-- `get(users/uid).data.role in ['infowriter', 'admin']`. -/
def storedRoleIn (db : UsersDB) (uid : String) (roles : List String) : Bool :=
  match storedRole db uid with
  | some r => roles.contains r
  | none => false

/-- A document in the `articles` collection, as far as the rules inspect
it: `status` and `authorId`. -/
structure ArticleData where
  status : Option String
  authorId : Option String
deriving DecidableEq, Repr

/-- The two `allow read` lines of `match /articles/{articleId}`:
public read of published articles, and authenticated read by the author or
by a caller whose stored role is admin. -/
def articlesReadAllowed (db : UsersDB) (auth : Option String)
    (res : ArticleData) : Bool :=
  (res.status == some "published") ||
  (match auth with
   | none => false
   | some uid => (res.authorId == some uid) || isStoredAdmin db uid)

/-- The `allow create` line of `match /articles/{articleId}`: authenticated,
stored role in `['infowriter', 'admin']`, and the proposed document's
`authorId` equals the caller's uid. -/
def articlesCreateAllowed (db : UsersDB) (auth : Option String)
    (proposed : ArticleData) : Bool :=
  match auth with
  | none => false
  | some uid =>
    storedRoleIn db uid ["infowriter", "admin"] &&
    (proposed.authorId == some uid)

/-- The first `allow update` line of `match /users/{userId}`: the subject
may update their own document provided the proposed document's `role` field
is absent or unchanged (`!('role' in request.resource.data) ||
request.resource.data.role == resource.data.role`). -/
def usersSelfUpdateAllowed (auth : Option String) (userId : String)
    (existing proposed : UserData) : Bool :=
  match auth with
  | none => false
  | some uid =>
    (uid == userId) &&
    (proposed.role.isNone || proposed.role == existing.role)

/-- The second `allow update` line of `match /users/{userId}`: callers whose
own profile document exists and has role admin may update any profile. -/
def usersAdminUpdateAllowed (db : UsersDB) (auth : Option String) : Bool :=
  match auth with
  | none => false
  | some uid => userDocExists db uid && isStoredAdmin db uid

/-- Update permission on `users`: the disjunction of the two
`allow update` lines. -/
def usersUpdateAllowed (db : UsersDB) (auth : Option String) (userId : String)
    (existing proposed : UserData) : Bool :=
  usersSelfUpdateAllowed auth userId existing proposed ||
  usersAdminUpdateAllowed db auth

/-- The `allow create` line of `match /users/{userId}`:
`request.auth != null && request.auth.uid == userId`. The proposed document
is not inspected. -/
def usersCreateAllowed (auth : Option String) (userId : String) : Bool :=
  match auth with
  | none => false
  | some uid => uid == userId

/-- The privilege order on stored role values behind the spec's phrase
"a more privileged value": `admin` above `infowriter` above `user`; an
absent or unrecognised role ranks with `user`. -/
def rolePrivilege : Option String → Nat
  | some r => if r = "admin" then 2 else if r = "infowriter" then 1 else 0
  | none => 0

/-- A document in the `writerRequests` collection, as far as the rules
inspect it: only `userId`. -/
structure WriterRequestData where
  userId : Option String
deriving DecidableEq, Repr

/-- `match /writerRequests/{requestId}`: the three `allow` lines (read by
owner or admin; create by the proposed document's subject; update by admin),
each guarded by the operations its keyword covers. No line names `delete`,
so a delete matches no rule and the default deny applies. -/
def writerRequestsAllowed (db : UsersDB) (auth : Option String)
    (existing proposed : WriterRequestData) (op : Op) : Bool :=
  (covers [.read] op &&
    (match auth with
     | none => false
     | some uid => (existing.userId == some uid) || isStoredAdmin db uid)) ||
  (covers [.create] op &&
    (match auth with
     | none => false
     | some uid => proposed.userId == some uid)) ||
  (covers [.update] op &&
    (match auth with
     | none => false
     | some uid => isStoredAdmin db uid))

/-- A document in the `savedArticles` collection, as far as the rules
inspect it: only `userId`. -/
structure SavedArticleData where
  userId : Option String
deriving DecidableEq, Repr

/-- The document-id ownership test of `match /savedArticles/{savedArticleId}`:
`savedArticleId.size() > request.auth.uid.size() &&
savedArticleId[0:request.auth.uid.size()] == request.auth.uid &&
savedArticleId[request.auth.uid.size()] == '_'`, on the character
sequences of the two strings. -/
def savedIdHasUidUnderscore (savedArticleId uid : String) : Bool :=
  decide (uid.toList.length < savedArticleId.toList.length) &&
  (savedArticleId.toList.take uid.toList.length == uid.toList) &&
  (savedArticleId.toList.get? uid.toList.length == some '_')

/-- `match /savedArticles/{savedArticleId}`: the owner line
(`allow read, write, create, delete`) with its three-way ownership union
over the document id, the existing document's `userId` (guarded by
`resource != null`) and the proposed document's `userId` (guarded by
`request.resource != null`); the `allow list` line for any authenticated
caller; and the admin line (`allow read, write, list`). `existing` is
`none` when there is no document at the id (`resource == null`), `proposed`
is `none` when the request carries no document (`request.resource ==
null`). -/
def savedArticlesAllowed (db : UsersDB) (auth : Option String)
    (savedArticleId : String) (existing proposed : Option SavedArticleData)
    (op : Op) : Bool :=
  (covers [.read, .create, .update, .delete, .create, .delete] op &&
    (match auth with
     | none => false
     | some uid =>
       savedIdHasUidUnderscore savedArticleId uid ||
       (match existing with
        | some e => e.userId == some uid
        | none => false) ||
       (match proposed with
        | some p => p.userId == some uid
        | none => false))) ||
  (covers [.list] op && auth.isSome) ||
  (covers [.read, .create, .update, .delete, .list] op &&
    (match auth with
     | none => false
     | some uid => userDocExists db uid && isStoredAdmin db uid))

/-! ## The session cache and profile loading -/

/-- The client-side profile shape `UserProfile` of `AuthContext.tsx`, the
fields `loadUserProfile` populates (the two `Date` fields are outside the
model; no claim inspects them). -/
structure UserProfile where
  uid : String
  email : String
  displayName : String
  role : Role
  emailVerified : Bool
  profilePicture : String
  requestedWriterAccess : Option Bool
deriving DecidableEq, Repr

/-- The local-storage state behind the three `CACHE_KEYS`:
`infonest_user_profile`, `infonest_permissions`, `infonest_cache_updated`.
A `none` entry models an absent key. The timestamp is the stored
`Date.now()` value in milliseconds. -/
structure CacheStore where
  profileEntry : Option UserProfile
  permissionsEntry : Option CachedPermissions
  lastUpdated : Option Int
deriving DecidableEq, Repr

/-- `CACHE_EXPIRY = 5 * 60 * 1000` milliseconds. -/
def CACHE_EXPIRY : Int := 5 * 60 * 1000

/-- `clearCache`: removes all three cache keys. -/
def clearCache (_s : CacheStore) : CacheStore :=
  { profileEntry := none, permissionsEntry := none, lastUpdated := none }

/-- `getCachedData<UserProfile>(CACHE_KEYS.USER_PROFILE)` at read time
`now`: absent entry or absent timestamp gives `null`; a timestamp older
than `CACHE_EXPIRY` clears the cache and gives `null`; otherwise the stored
value is returned. The returned pair is (result, cache state after the
read). -/
def getCachedProfile (s : CacheStore) (now : Int) :
    Option UserProfile × CacheStore :=
  match s.profileEntry with
  | none => (none, s)
  | some v =>
    match s.lastUpdated with
    | none => (none, s)
    | some t =>
      if now - t > CACHE_EXPIRY then (none, clearCache s)
      else (some v, s)

/-- `getCachedData<CachedPermissions>(CACHE_KEYS.PERMISSIONS)` at read time
`now`; same logic as the profile read. -/
def getCachedPermissions (s : CacheStore) (now : Int) :
    Option CachedPermissions × CacheStore :=
  match s.permissionsEntry with
  | none => (none, s)
  | some v =>
    match s.lastUpdated with
    | none => (none, s)
    | some t =>
      if now - t > CACHE_EXPIRY then (none, clearCache s)
      else (some v, s)

/-- JavaScript `a || b` on an optional string, where both `undefined`/`null`
and the empty string are falsy. -/
def jsStringOr (a : Option String) (b : String) : String :=
  match a with
  | some s => if s = "" then b else s
  | none => b

/-- The authentication-provider user object, as far as `loadUserProfile`
reads it: `uid`, `email`, `displayName`, `emailVerified`. -/
structure FirebaseUser where
  uid : String
  email : Option String
  displayName : Option String
  emailVerified : Bool
deriving DecidableEq, Repr

/-- The raw profile document data `loadUserProfile` reads from
`users/{uid}`: each field may be absent. -/
structure ProfileDocData where
  displayName : Option String
  role : Option Role
  profilePicture : Option String
  requestedWriterAccess : Option Bool
deriving DecidableEq, Repr

/-- The provider state that `loadUserProfile` writes: the `userProfile` and
`permissions` React state plus the persistent cache. -/
structure AuthState where
  userProfile : Option UserProfile
  permissions : Option CachedPermissions
  cache : CacheStore
deriving DecidableEq, Repr

/-- `loadUserProfile` from `AuthContext.tsx`. The fetch of
`users/{firebaseUser.uid}` is abstracted as its outcome: `.error ()` when
`reload`/`getDoc` throws, `.ok none` when the snapshot does not exist,
`.ok (some data)` on success. On success the profile is built with the
source's fallback chain for `displayName`, `role` defaulting to `user`,
the permissions derived by `generatePermissions`, and both cached with the
timestamp `now` (`setCachedData` writes the value and refreshes
`infonest_cache_updated`). On a missing document or a thrown error the
state degrades to no profile, no permissions, cache cleared; the function
is total, so no exception propagates. -/
def loadUserProfile (firebaseUser : FirebaseUser)
    (fetchResult : Except Unit (Option ProfileDocData)) (now : Int)
    (st : AuthState) : AuthState :=
  match fetchResult with
  | .error _ =>
    { userProfile := none, permissions := none, cache := clearCache st.cache }
  | .ok none =>
    { userProfile := none, permissions := none, cache := clearCache st.cache }
  | .ok (some data) =>
    let profile : UserProfile :=
      { uid := firebaseUser.uid
        email := jsStringOr firebaseUser.email ""
        displayName :=
          jsStringOr data.displayName
            (jsStringOr firebaseUser.displayName
              (jsStringOr
                (firebaseUser.email.map (fun e => (e.splitOn "@").headD ""))
                ""))
        role := data.role.getD .user
        emailVerified := firebaseUser.emailVerified
        profilePicture := jsStringOr data.profilePicture ""
        requestedWriterAccess := data.requestedWriterAccess }
    let perms := generatePermissions profile.role
    { userProfile := some profile
      permissions := some perms
      cache :=
        { profileEntry := some profile
          permissionsEntry := some perms
          lastUpdated := some now } }

/-! ## Sample data used by witness theorems -/

/-- A small users database: an admin, an infowriter and a plain user. -/
def dbSample : UsersDB := fun uid =>
  if uid = "a1" then some { role := some "admin" }
  else if uid = "w1" then some { role := some "infowriter" }
  else if uid = "u2" then some { role := some "user" }
  else none

/-- An empty users database: no profile document exists. -/
def dbEmpty : UsersDB := fun _ => none

/-- A sample client-side profile. -/
def profileSample : UserProfile :=
  { uid := "u1", email := "u1@example.com", displayName := "User One"
    role := .admin, emailVerified := true, profilePicture := ""
    requestedWriterAccess := none }

/-- A sample cache state holding both entries, written at time 0. -/
def cacheSample : CacheStore :=
  { profileEntry := some profileSample
    permissionsEntry := some (generatePermissions .admin)
    lastUpdated := some 0 }

/-- A sample authentication-provider user. -/
def fbSample : FirebaseUser :=
  { uid := "u1", email := none, displayName := none, emailVerified := true }

/-- A sample raw profile document. -/
def docSample : ProfileDocData :=
  { displayName := some "User One", role := some .infowriter
    profilePicture := none, requestedWriterAccess := none }

/-- An empty provider state. -/
def authStateSample : AuthState :=
  { userProfile := none, permissions := none
    cache := { profileEntry := none, permissionsEntry := none, lastUpdated := none } }

/-! ## Helper lemmas -/

/-- The stored role of the caller is `in ['infowriter', 'admin']` exactly
when it is one of the two values. -/
theorem storedRoleIn_writer_iff (db : UsersDB) (uid : String) :
    storedRoleIn db uid ["infowriter", "admin"] = true ↔
      storedRole db uid = some "infowriter" ∨
      storedRole db uid = some "admin" := by
  unfold storedRoleIn
  cases h : storedRole db uid with
  | none => simp
  | some r =>
    simp only [List.contains, List.elem_iff, Option.some.injEq,
      List.mem_cons, List.not_mem_nil, or_false]

/-- Taking `p.length` characters of `l` yields `p` and the next character
is `c` exactly when `l` is `p`, then `c`, then some tail. -/
theorem take_get_eq_append (l p : List Char) (c : Char) :
    (l.take p.length = p ∧ l.get? p.length = some c) ↔
      ∃ t, l = p ++ c :: t := by
  induction p generalizing l with
  | nil =>
    cases l with
    | nil => simp
    | cons a as => simp [eq_comm]
  | cons b bs ih =>
    cases l with
    | nil => simp
    | cons a as =>
      simp only [List.length_cons, List.take_succ_cons, List.cons.injEq,
        List.get?_cons_succ, List.cons_append]
      rw [and_assoc, ih as]
      constructor
      · rintro ⟨rfl, t, rfl⟩
        exact ⟨t, rfl, rfl⟩
      · rintro ⟨t, rfl, rfl⟩
        exact ⟨rfl, t, rfl⟩

/-- The document-id ownership test holds exactly when the id's characters
are the uid's characters, an underscore, and some tail. -/
theorem savedIdHasUidUnderscore_iff (s u : String) :
    savedIdHasUidUnderscore s u = true ↔
      ∃ rest, s.toList = u.toList ++ '_' :: rest := by
  unfold savedIdHasUidUnderscore
  rw [Bool.and_eq_true, Bool.and_eq_true]
  simp only [decide_eq_true_eq, beq_iff_eq]
  constructor
  · rintro ⟨⟨_, htake⟩, hget⟩
    exact (take_get_eq_append s.toList u.toList '_').mp ⟨htake, hget⟩
  · intro hex
    have h2 := (take_get_eq_append s.toList u.toList '_').mpr hex
    obtain ⟨rest, hrest⟩ := hex
    refine ⟨⟨?_, h2.1⟩, h2.2⟩
    rw [hrest]
    simp [List.length_append]

/-! ## Claim theorems -/

/-- C2: `generatePermissions` is a total deterministic function of the role
alone; for `admin` all seven capability flags are true, for `infowriter`
only `canCreateArticles` is true, for `user` all seven are false, and in
every case `dashboardRoute` is the fixed route `/dashboard`. -/
theorem generatePermissions_role_table :
    generatePermissions .admin =
      { canCreateArticles := true, canManageUsers := true
        canAccessAdmin := true, canEditAnyArticle := true
        canDeleteArticles := true, canApproveWriters := true
        canViewAnalytics := true, dashboardRoute := "/dashboard" } ∧
    generatePermissions .infowriter =
      { canCreateArticles := true, canManageUsers := false
        canAccessAdmin := false, canEditAnyArticle := false
        canDeleteArticles := false, canApproveWriters := false
        canViewAnalytics := false, dashboardRoute := "/dashboard" } ∧
    generatePermissions .user =
      { canCreateArticles := false, canManageUsers := false
        canAccessAdmin := false, canEditAnyArticle := false
        canDeleteArticles := false, canApproveWriters := false
        canViewAnalytics := false, dashboardRoute := "/dashboard" } ∧
    ∀ r : Role, (generatePermissions r).dashboardRoute = "/dashboard" := by
  refine ⟨rfl, rfl, rfl, ?_⟩
  intro r
  cases r <;> rfl

/-- C7: over the permission set derived from a role, `isInfoWriter`
(`canCreateArticles && !canAccessAdmin`) holds exactly for `infowriter` and
`isAdmin` (`canAccessAdmin`) exactly for `admin`; `isUser`, computed by
direct role comparison, holds exactly for `user`. -/
theorem derived_role_flags_iff (r : Role) :
    (isAdminFlag (some (generatePermissions r)) = true ↔ r = .admin) ∧
    (isInfoWriterFlag (some (generatePermissions r)) = true ↔ r = .infowriter) ∧
    (isUserFlag (some r) = true ↔ r = .user) := by
  cases r <;> refine ⟨?_, ?_, ?_⟩ <;> simp [isAdminFlag, isInfoWriterFlag,
    isUserFlag, generatePermissions, basePermissions]

/-- C10: deleting a `writerRequests` document is denied for every
requester — owner and admin included — because its rules grant only read,
create and update, and an operation no `allow` line covers is denied by
default. -/
theorem writerRequests_delete_denied (db : UsersDB) (auth : Option String)
    (existing proposed : WriterRequestData) :
    writerRequestsAllowed db auth existing proposed .delete = false := rfl

/-- C4: creating an article is allowed exactly when the requester is
authenticated, their stored role is `infowriter` or `admin`, and the
proposed `authorId` equals their uid; in particular a proposed `authorId`
different from the caller's uid is denied whatever the caller's role. -/
theorem articles_create_iff_author_self :
    (∀ (db : UsersDB) (auth : Option String) (proposed : ArticleData),
      articlesCreateAllowed db auth proposed = true ↔
        ∃ uid, auth = some uid ∧
          (storedRole db uid = some "infowriter" ∨
           storedRole db uid = some "admin") ∧
          proposed.authorId = some uid) ∧
    (∀ (db : UsersDB) (uid : String) (proposed : ArticleData),
      proposed.authorId ≠ some uid →
      articlesCreateAllowed db (some uid) proposed = false) := by
  have hmain : ∀ (db : UsersDB) (auth : Option String) (proposed : ArticleData),
      articlesCreateAllowed db auth proposed = true ↔
        ∃ uid, auth = some uid ∧
          (storedRole db uid = some "infowriter" ∨
           storedRole db uid = some "admin") ∧
          proposed.authorId = some uid := by
    intro db auth proposed
    cases auth with
    | none => simp [articlesCreateAllowed]
    | some uid =>
      simp [articlesCreateAllowed, storedRoleIn_writer_iff db uid,
        Bool.and_eq_true, beq_iff_eq]
  refine ⟨hmain, ?_⟩
  intro db uid proposed hne
  cases h : articlesCreateAllowed db (some uid) proposed with
  | false => rfl
  | true =>
    rcases (hmain db (some uid) proposed).mp h with ⟨u, hu, _, hauthor⟩
    cases hu
    exact absurd hauthor hne

/-- C4 witness: an admin (`a1` in `dbSample`) proposing an article whose
`authorId` is another user is denied. -/
theorem articles_create_iff_author_self_witness :
    articlesCreateAllowed dbSample (some "a1")
      { status := none, authorId := some "u2" } = false :=
  articles_create_iff_author_self.2 dbSample "a1"
    { status := none, authorId := some "u2" } (by decide)

/-- C5: an article read is allowed exactly when the article is published,
or the requester is authenticated and is the author or has stored role
admin; hence an unpublished article is unreadable by an unauthenticated
requester and by any authenticated requester who is neither author nor
admin. -/
theorem articles_read_iff :
    (∀ (db : UsersDB) (auth : Option String) (res : ArticleData),
      articlesReadAllowed db auth res = true ↔
        (res.status = some "published" ∨
         ∃ uid, auth = some uid ∧
           (res.authorId = some uid ∨ storedRole db uid = some "admin"))) ∧
    (∀ (db : UsersDB) (res : ArticleData),
      res.status ≠ some "published" →
      articlesReadAllowed db none res = false ∧
      ∀ uid : String, res.authorId ≠ some uid →
        storedRole db uid ≠ some "admin" →
        articlesReadAllowed db (some uid) res = false) := by
  have hmain : ∀ (db : UsersDB) (auth : Option String) (res : ArticleData),
      articlesReadAllowed db auth res = true ↔
        (res.status = some "published" ∨
         ∃ uid, auth = some uid ∧
           (res.authorId = some uid ∨ storedRole db uid = some "admin")) := by
    intro db auth res
    cases auth with
    | none => simp [articlesReadAllowed]
    | some uid =>
      simp [articlesReadAllowed, isStoredAdmin, Bool.or_eq_true, beq_iff_eq]
  refine ⟨hmain, ?_⟩
  intro db res hstatus
  constructor
  · cases h : articlesReadAllowed db none res
    · rfl
    · rcases (hmain db none res).mp h with h1 | ⟨u, hu, _⟩
      · exact absurd h1 hstatus
      · exact absurd hu (by simp)
  · intro uid hauthor hadmin
    cases h : articlesReadAllowed db (some uid) res
    · rfl
    · rcases (hmain db (some uid) res).mp h with h1 | ⟨u, hu, h2 | h2⟩
      · exact absurd h1 hstatus
      · cases hu; exact absurd h2 hauthor
      · cases hu; exact absurd h2 hadmin

/-- C5 witness: a draft article by `U1` is unreadable both anonymously and
by an authenticated stranger (`u2`, role `user` in `dbSample`). -/
theorem articles_read_iff_witness :
    articlesReadAllowed dbSample none
      { status := some "draft", authorId := some "U1" } = false ∧
    articlesReadAllowed dbSample (some "u2")
      { status := some "draft", authorId := some "U1" } = false :=
  ⟨(articles_read_iff.2 dbSample
      { status := some "draft", authorId := some "U1" } (by decide)).1,
   (articles_read_iff.2 dbSample
      { status := some "draft", authorId := some "U1" } (by decide)).2
      "u2" (by decide) (by decide)⟩

/-- C3: an update of a user document by its own subject is allowed exactly
when the proposed `role` is absent or equal to the existing `role`, or the
caller's stored profile role is admin — so a self-update that changes the
role is denied unless the caller is a stored admin. -/
theorem users_self_update_role_immutable (db : UsersDB) (uid : String)
    (existing proposed : UserData) :
    usersUpdateAllowed db (some uid) uid existing proposed = true ↔
      (proposed.role = none ∨ proposed.role = existing.role ∨
       storedRole db uid = some "admin") := by
  unfold usersUpdateAllowed usersSelfUpdateAllowed usersAdminUpdateAllowed
  unfold isStoredAdmin userDocExists storedRole
  cases h : db uid with
  | none =>
    simp [h, Option.isNone_iff_eq_none]
  | some u =>
    simp [h, Option.isNone_iff_eq_none, or_assoc]

/-- C1 counterexample: with an empty users database (so the target document
`users/u1` does not yet exist, and the requester `u1` has no stored
profile), the create of `users/u1` is allowed although the proposed
document `{ role := some "admin" }` carries a role strictly more privileged
than any the requester held, and the requester's stored role is not admin:
the users `create` rule checks only `request.auth.uid == userId` and never
inspects the proposed document, refuting the claim for creates. -/
theorem users_create_role_elevation_cex :
    usersCreateAllowed (some "u1") "u1" = true ∧
    rolePrivilege (UserData.mk (some "admin")).role > rolePrivilege none ∧
    storedRole dbEmpty "u1" ≠ some "admin" := by
  refine ⟨rfl, by decide, by decide⟩

/-- C1 (amended): for every allowed **update** of a user document whose
proposed `role` is strictly more privileged than the existing one, the
requester's stored profile role is admin; the `create` rule, by contrast,
only checks that the requester creates their own document id and places no
constraint on the proposed `role`. -/
theorem users_update_role_elevation_needs_admin (db : UsersDB)
    (uid userId : String) (existing proposed : UserData)
    (hAllowed : usersUpdateAllowed db (some uid) userId existing proposed = true)
    (hElev : rolePrivilege existing.role < rolePrivilege proposed.role) :
    storedRole db uid = some "admin" := by
  simp only [usersUpdateAllowed, usersSelfUpdateAllowed,
    usersAdminUpdateAllowed, isStoredAdmin, Bool.or_eq_true, Bool.and_eq_true,
    beq_iff_eq, Option.isNone_iff_eq_none] at hAllowed
  rcases hAllowed with ⟨_, hrole | hrole⟩ | ⟨_, hadmin⟩
  · rw [hrole] at hElev
    exact absurd hElev (by simp [rolePrivilege])
  · rw [hrole] at hElev
    exact absurd hElev (lt_irrefl _)
  · exact hadmin

/-- C1 witness: the stored admin `a1` of `dbSample` elevating `u2` from
`user` to `infowriter` is an allowed update, and the theorem concludes that
`a1`'s stored role is admin. -/
theorem users_update_role_elevation_needs_admin_witness :
    storedRole dbSample "a1" = some "admin" :=
  users_update_role_elevation_needs_admin dbSample "a1" "u2"
    (UserData.mk (some "user")) (UserData.mk (some "infowriter"))
    (by decide) (by decide)

/-- Evaluation of the savedArticles policy at a non-list operation for a
non-admin caller: only the owner line can grant, and its three-way
ownership union is characterised. -/
theorem savedArticles_allowed_eval (db : UsersDB) (uid sid : String)
    (e p : Option SavedArticleData) (op : Op)
    (h1 : covers [Op.read, Op.create, Op.update, Op.delete, Op.create,
      Op.delete] op = true)
    (h2 : covers [Op.list] op = false)
    (h3 : covers [Op.read, Op.create, Op.update, Op.delete, Op.list] op = true)
    (hadm : storedRole db uid ≠ some "admin") :
    (savedArticlesAllowed db (some uid) sid e p op = true ↔
      ((∃ rest, sid.toList = uid.toList ++ '_' :: rest) ∨
       (∃ x, e = some x ∧ x.userId = some uid) ∨
       (∃ x, p = some x ∧ x.userId = some uid))) := by
  have hadm' : isStoredAdmin db uid = false := by
    simp only [isStoredAdmin, beq_eq_false_iff_ne, ne_eq]
    exact hadm
  unfold savedArticlesAllowed
  rw [h1, h2, h3]
  cases e <;> cases p <;>
    simp [hadm', savedIdHasUidUnderscore_iff, beq_iff_eq, or_assoc]

/-- C6: for an authenticated non-admin requester, each of
read/write/create/delete on a savedArticles document is allowed exactly
when the document id is the requester's uid followed by an underscore (and
anything after), or the existing document's `userId` is the requester's
uid, or the proposed document's `userId` is; concretely the document
`U1_A1` with no `userId` field is writable by `U1` and not by the
non-admin `U2`. -/
theorem savedArticles_ownership_iff :
    (∀ (db : UsersDB) (uid sid : String)
       (existing proposed : Option SavedArticleData) (op : Op),
      op ≠ .list →
      storedRole db uid ≠ some "admin" →
      (savedArticlesAllowed db (some uid) sid existing proposed op = true ↔
        ((∃ rest, sid.toList = uid.toList ++ '_' :: rest) ∨
         (∃ x, existing = some x ∧ x.userId = some uid) ∨
         (∃ x, proposed = some x ∧ x.userId = some uid)))) ∧
    savedArticlesAllowed dbEmpty (some "U1") "U1_A1"
      (some { userId := none }) (some { userId := none }) .update = true ∧
    savedArticlesAllowed dbEmpty (some "U2") "U1_A1"
      (some { userId := none }) (some { userId := none }) .update = false := by
  refine ⟨?_, by decide, by decide⟩
  intro db uid sid existing proposed op hop hadm
  cases op with
  | list => exact absurd rfl hop
  | read => exact savedArticles_allowed_eval db uid sid existing proposed _ rfl rfl rfl hadm
  | create => exact savedArticles_allowed_eval db uid sid existing proposed _ rfl rfl rfl hadm
  | update => exact savedArticles_allowed_eval db uid sid existing proposed _ rfl rfl rfl hadm
  | delete => exact savedArticles_allowed_eval db uid sid existing proposed _ rfl rfl rfl hadm

/-- C6 witness: reading `U1_A1` as the non-admin `U1` (empty users
database) is allowed through the id-ownership disjunct. -/
theorem savedArticles_ownership_iff_witness :
    savedArticlesAllowed dbEmpty (some "U1") "U1_A1"
      (some { userId := none }) none .read = true :=
  (savedArticles_ownership_iff.1 dbEmpty "U1" "U1_A1"
      (some { userId := none }) none .read (by decide) (by decide)).mpr
    (Or.inl ⟨['A', '1'], by decide⟩)

/-- C8: a cache entry (profile or permissions) whose stored last-updated
timestamp is more than `CACHE_EXPIRY` (5 minutes) before the read time is
treated as absent — the read returns `none` and clears the stored
entries — while an entry at most 5 minutes old is returned as stored. -/
theorem cache_expiry_spec (s : CacheStore) (now t : Int)
    (pv : UserProfile) (qv : CachedPermissions)
    (hup : s.lastUpdated = some t)
    (hp : s.profileEntry = some pv)
    (hq : s.permissionsEntry = some qv) :
    (now - t > CACHE_EXPIRY →
      getCachedProfile s now = (none, clearCache s) ∧
      getCachedPermissions s now = (none, clearCache s)) ∧
    (now - t ≤ CACHE_EXPIRY →
      getCachedProfile s now = (some pv, s) ∧
      getCachedPermissions s now = (some qv, s)) := by
  constructor
  · intro h
    constructor <;>
      simp [getCachedProfile, getCachedPermissions, hp, hq, hup, h]
  · intro h
    constructor <;>
      simp [getCachedProfile, getCachedPermissions, hp, hq, hup, not_lt.mpr h]

/-- C8 witness: with both entries written at time 0, a read at
`300001` (one millisecond past the 5-minute expiry) returns `none` and the
cleared store, and a read at `300000` returns the stored values. -/
theorem cache_expiry_spec_witness :
    (getCachedProfile cacheSample 300001 = (none, clearCache cacheSample) ∧
     getCachedPermissions cacheSample 300001 =
       (none, clearCache cacheSample)) ∧
    (getCachedProfile cacheSample 300000 = (some profileSample, cacheSample) ∧
     getCachedPermissions cacheSample 300000 =
       (some (generatePermissions .admin), cacheSample)) :=
  ⟨(cache_expiry_spec cacheSample 300001 0 profileSample
      (generatePermissions .admin) rfl rfl rfl).1 (by decide),
   (cache_expiry_spec cacheSample 300000 0 profileSample
      (generatePermissions .admin) rfl rfl rfl).2 (by decide)⟩

/-- C9: when the profile fetch throws or the document does not exist,
`loadUserProfile` yields profile `none`, permissions `none`, and a cleared
persistent cache — as a total function, no exception propagates — and in
every outcome the permissions are non-`none` only when the profile is. -/
theorem loadUserProfile_failure_spec (fb : FirebaseUser) (now : Int)
    (st : AuthState) :
    (loadUserProfile fb (.error ()) now st =
      { userProfile := none, permissions := none,
        cache := clearCache st.cache }) ∧
    (loadUserProfile fb (.ok none) now st =
      { userProfile := none, permissions := none,
        cache := clearCache st.cache }) ∧
    (∀ fetchResult : Except Unit (Option ProfileDocData),
      (loadUserProfile fb fetchResult now st).permissions.isSome = true →
      (loadUserProfile fb fetchResult now st).userProfile.isSome = true) := by
  refine ⟨rfl, rfl, ?_⟩
  intro fetchResult h
  match fetchResult with
  | .error _ => simp [loadUserProfile] at h
  | .ok none => simp [loadUserProfile] at h
  | .ok (some d) => simp [loadUserProfile]

/-- C9 witness: on a successful fetch of a sample document the loaded state
has a profile, as the theorem's third part concludes from it having
permissions. -/
theorem loadUserProfile_failure_spec_witness :
    (loadUserProfile fbSample (.ok (some docSample)) 0
      authStateSample).userProfile.isSome = true :=
  (loadUserProfile_failure_spec fbSample 0 authStateSample).2.2
    (.ok (some docSample)) rfl
